import Mathlib

/-!
Verification of the FF_Stake transaction-broadcast engine.

The two scripts `ff_deposit.py` and `ff_cooldown.py` share the same core:
a `NonceManager` (nonce cursor per account), fee helpers `suggest_fees`,
`bump_fees`, `estimate_gas_safe`, and the broadcast/confirm loop
`send_with_rbf`.  This file embeds those functions shallowly:

* Python ints become `Nat` (all quantities involved are non-negative:
  nonces, fee amounts in wei, gas).  `NonceManager.back` computes
  `max(0, n-1)`, which is `Nat` truncated subtraction.
* `decimal.Decimal` arithmetic in `bump_fees` and `estimate_gas_safe` is
  exact on the values in range (the multiplier `1 + p/100` for an integer
  percentage `p`, and `1.10`, are finite decimals), and Python `int()` on
  a non-negative value is the floor, so `int(Decimal(x) * (1 + p/100))`
  is the natural-number division `x * (100 + p) / 100`, and
  `int(Decimal(g) * Decimal 1.10)` is `g * 110 / 100`.
* The node (RPC) is modelled by explicit inputs: the fee-history answer
  and gas price for `suggest_fees`, the gas-estimate answer for
  `estimate_gas_safe` (`none` = the call raised), and for the polling
  loop of `send_with_rbf` an environment `env : Nat → RoundResult`
  giving, for each broadcast round, whether the bounded receipt-poll
  loop observed a receipt (with its `status` attribute) or ran out of
  its `max_wait` budget.  Transient RPC errors during polling are
  swallowed by the source and so are absorbed in that abstraction;
  `max_wait` itself only scales the poll loop and does not otherwise
  enter the control flow.
* `send_with_rbf` returns the hex hash of the last broadcast attempt on
  every return path, so the result record keeps the ordered list of all
  broadcast transaction drafts (`attempts`, the returned identifier
  being that of the last element), the final nonce-manager state, and
  how many times `nonce_mgr.back()` was invoked.
-/

/-- Fee bid: the two EIP-1559 fee fields carried in the tx dict, in wei.
Mirrors the dict returned by `suggest_fees` / `bump_fees`
(ff_deposit.py lines 79-94). -/
structure Fees where
  maxPriorityFeePerGas : Nat
  maxFeePerGas : Nat
deriving DecidableEq, Repr

/-- Module constant `BUMP_PCT = 20` (ff_deposit.py line 12,
ff_cooldown.py line 16): the RBF bump percentage used inside the loop. -/
def BUMP_PCT : Nat := 20

/-- Embedding of `suggest_fees(w3, priority_gwei)` (ff_deposit.py lines
79-87).  `feeHistory` is the `baseFeePerGas` list of a successful
`fee_history(3, "latest")` call, `none` when the call raised; the source
indexes `[-1]`, and an `IndexError` on an empty list is caught by the same
`except`, so both the failed call and the empty list fall back to
`gas_price`.  `priority` is the hint already converted to wei
(`Web3.to_wei(float(priority_gwei), "gwei")`). -/
def suggest_fees (feeHistory : Option (List Nat)) (gas_price : Nat) (priority : Nat) : Fees :=
  let base : Nat :=
    match feeHistory with
    | some fh =>
      match fh.getLast? with
      | some b => b
      | none => gas_price
    | none => gas_price
  { maxPriorityFeePerGas := priority, maxFeePerGas := base + priority * 2 }

/-- Embedding of `bump_fees(fees, bump_pct)` (ff_deposit.py lines 89-94):
both fields are multiplied by `1 + bump_pct/100` and truncated to an
integer, i.e. `x * (100 + p) / 100` in floor division. -/
def bump_fees (fees : Fees) (bump_pct : Nat) : Fees :=
  { maxPriorityFeePerGas := fees.maxPriorityFeePerGas * (100 + bump_pct) / 100,
    maxFeePerGas := fees.maxFeePerGas * (100 + bump_pct) / 100 }

/-- Embedding of `estimate_gas_safe(w3, tx, fallback_gas)` (ff_deposit.py
lines 96-103).  `gas_est` is the node's answer (`none` = `estimate_gas`
raised); the result is `none` exactly when the function re-raises. -/
def estimate_gas_safe (gas_est : Option Nat) (fallback_gas : Option Nat) : Option Nat :=
  match gas_est with
  | some g => some (g * 110 / 100)
  | none => fallback_gas

/-- Embedding of the `NonceManager` state (ff_deposit.py lines 46-62):
just the cursor `self._nonce`. -/
structure NonceManager where
  nonce : Nat
deriving DecidableEq, Repr

/-- `NonceManager.current` (line 53-54). -/
def NonceManager.current (m : NonceManager) : Nat := m.nonce

/-- `NonceManager.next` (lines 55-58): returns the cursor and the state
with the cursor incremented. -/
def NonceManager.next (m : NonceManager) : Nat × NonceManager :=
  (m.nonce, { nonce := m.nonce + 1 })

/-- `NonceManager.back` (lines 59-60): `self._nonce = max(0, self._nonce - 1)`,
which on `Nat` is truncated subtraction. -/
def NonceManager.back (m : NonceManager) : NonceManager :=
  { nonce := m.nonce - 1 }

/-- A transaction draft as assembled by `send_with_rbf` (ff_deposit.py
lines 108-111 and 143-144): the caller-supplied fields plus nonce, gas
and the two fee fields.  Addresses and call data are opaque `Nat` tags. -/
structure Tx where
  chainId : Nat
  toAddr : Nat
  value : Nat
  data : Nat
  fromAddr : Nat
  nonce : Nat
  gas : Nat
  maxPriorityFeePerGas : Nat
  maxFeePerGas : Nat
deriving DecidableEq, Repr

/-- The `tx_fields` dict passed to `send_with_rbf` (built by the callers
`ensure_infinite_approve`, `step_deposit`, `step_cooldown_all_shares`):
chainId, from, to, value, data and the two fee fields. -/
structure TxFields where
  chainId : Nat
  toAddr : Nat
  value : Nat
  data : Nat
  fromAddr : Nat
  maxPriorityFeePerGas : Nat
  maxFeePerGas : Nat
deriving DecidableEq, Repr

/-- Outcome of one broadcast round's receipt-poll loop (ff_deposit.py
lines 123-135): either a receipt object with a `status` attribute was
observed within the `max_wait` budget, or the budget elapsed. -/
inductive RoundResult
  | receipt (status : Nat)
  | timeout
deriving DecidableEq, Repr

/-- Terminal outcome of one `send_with_rbf` call, per the spec's three
terminal states. -/
inductive Outcome
  | confirmedSuccess
  | confirmedFailure
  | abandoned
deriving DecidableEq, Repr

/-- Result of a `send_with_rbf` call: terminal outcome, the ordered list
of broadcast transaction drafts (the returned tx hash is the last
element's on every return path of the source), the final nonce-manager
state, and the number of `nonce_mgr.back()` invocations. -/
structure SendResult where
  outcome : Outcome
  attempts : List Tx
  mgr : NonceManager
  backCalls : Nat
deriving DecidableEq, Repr

/-- The `while True` loop of `send_with_rbf` (ff_deposit.py lines
114-145).  `env k` is the poll outcome of the k-th round counted from the
current one; `fuel` is the number of replacement rounds still allowed,
`max_retries - attempt` in source terms: the source abandons at the
iteration where `attempt + 1 > max_retries`, i.e. when `fuel = 0`.
On a receipt the source returns the current hash whatever the status
(lines 127-132); on a timeout with fuel left it calls `nonce_mgr.back()`
(line 141), bumps the fees with the module constant `BUMP_PCT` — not the
`bump_pct` parameter (line 142) — writes them into the tx (lines 143-144)
and loops. -/
def sendLoop (env : Nat → RoundResult) (tx : Tx) (mgr : NonceManager) : Nat → SendResult
  | 0 =>
    match env 0 with
    | RoundResult.receipt s =>
      { outcome := if s = 1 then Outcome.confirmedSuccess else Outcome.confirmedFailure,
        attempts := [tx], mgr := mgr, backCalls := 0 }
    | RoundResult.timeout =>
      { outcome := Outcome.abandoned, attempts := [tx], mgr := mgr, backCalls := 0 }
  | fuel + 1 =>
    match env 0 with
    | RoundResult.receipt s =>
      { outcome := if s = 1 then Outcome.confirmedSuccess else Outcome.confirmedFailure,
        attempts := [tx], mgr := mgr, backCalls := 0 }
    | RoundResult.timeout =>
      let mgr2 := NonceManager.back mgr
      let fees2 := bump_fees
        { maxPriorityFeePerGas := tx.maxPriorityFeePerGas, maxFeePerGas := tx.maxFeePerGas }
        BUMP_PCT
      let tx2 := { tx with maxPriorityFeePerGas := fees2.maxPriorityFeePerGas,
                           maxFeePerGas := fees2.maxFeePerGas }
      let r := sendLoop (fun n => env (n + 1)) tx2 mgr2 fuel
      { outcome := r.outcome, attempts := tx :: r.attempts, mgr := r.mgr,
        backCalls := r.backCalls + 1 }

/-- Embedding of `send_with_rbf` (ff_deposit.py lines 106-145): take a
nonce (line 109), estimate gas once with the static fallback the source
passes (120000 in ff_deposit.py line 110, 140000 in ff_cooldown.py line
110; the fallback is always present so the estimate never re-raises and
the `getD` default is never reached), build the draft, and enter the
broadcast loop.  The `bump_pct` parameter is carried because the source
declares it, but — as in the source — the loop body uses the module
constant `BUMP_PCT` instead. -/
def send_with_rbf (gas_est : Option Nat) (fallback_gas : Nat) (env : Nat → RoundResult)
    (nonce_mgr : NonceManager) (tx_fields : TxFields)
    (max_retries : Nat) (bump_pct : Nat) : SendResult :=
  let taken := NonceManager.next nonce_mgr
  let tx : Tx :=
    { chainId := tx_fields.chainId, toAddr := tx_fields.toAddr, value := tx_fields.value,
      data := tx_fields.data, fromAddr := tx_fields.fromAddr, nonce := taken.1,
      gas := (estimate_gas_safe gas_est (some fallback_gas)).getD fallback_gas,
      maxPriorityFeePerGas := tx_fields.maxPriorityFeePerGas,
      maxFeePerGas := tx_fields.maxFeePerGas }
  sendLoop env tx taken.2 max_retries

/-- Spec-side counterpart of `estimateInitial(priorityHint)` for the
refinement claim C6, following the spec's words: returns the bid with
priorityFee the hint and maxFee the base fee plus twice the hint. -/
def estimateInitial_spec (baseFee : Nat) (priorityHint : Nat) : Fees :=
  { maxPriorityFeePerGas := priorityHint, maxFeePerGas := baseFee + 2 * priorityHint }

/-- Helper: floor multiplication by `(100 + p)/100` is monotone. -/
theorem bump_div_mono (a b p : Nat) (h : a ≤ b) :
    a * (100 + p) / 100 ≤ b * (100 + p) / 100 :=
  Nat.div_le_div_right (Nat.mul_le_mul_right _ h)

/-- Helper: floor multiplication by `(100 + p)/100` strictly increases
`x` as soon as `x * p` reaches `100`. -/
theorem bump_div_strict (x p : Nat) (h : 100 ≤ x * p) :
    x < x * (100 + p) / 100 := by
  have e1 : x * (100 + p) = x * 100 + x * p := by ring
  have e2 : (x + 1) * 100 = x * 100 + 100 := by ring
  have h2 : (x + 1) * 100 ≤ x * (100 + p) := by omega
  have h3 : x + 1 ≤ x * (100 + p) / 100 := (Nat.le_div_iff_mul_le (by norm_num)).2 h2
  omega

/-- C3 counterexample: at the all-zero fee bid and bump percentage 20,
`bump_fees` returns the same bid, so the claimed strict increase of both
fields fails. -/
theorem C3_counterexample :
    ¬ ((Fees.maxPriorityFeePerGas { maxPriorityFeePerGas := 0, maxFeePerGas := 0 } <
          (bump_fees { maxPriorityFeePerGas := 0, maxFeePerGas := 0 } 20).maxPriorityFeePerGas) ∧
       (Fees.maxFeePerGas { maxPriorityFeePerGas := 0, maxFeePerGas := 0 } <
          (bump_fees { maxPriorityFeePerGas := 0, maxFeePerGas := 0 } 20).maxFeePerGas)) := by
  decide

/-- C3 (amended): `bump_fees` multiplies both fields by `1 + p/100`
rounded down to integer fee units, and both resulting fields are strictly
greater than the input's provided each input field times `p` is at least
100 (for example any field of at least 5 fee units when `p = 20`); with
rounding down, fields below that threshold — in particular 0 — need not
increase. -/
theorem C3_amended (f : Fees) (p : Nat)
    (h1 : 100 ≤ f.maxPriorityFeePerGas * p) (h2 : 100 ≤ f.maxFeePerGas * p) :
    bump_fees f p =
      { maxPriorityFeePerGas := f.maxPriorityFeePerGas * (100 + p) / 100,
        maxFeePerGas := f.maxFeePerGas * (100 + p) / 100 } ∧
    f.maxPriorityFeePerGas < (bump_fees f p).maxPriorityFeePerGas ∧
    f.maxFeePerGas < (bump_fees f p).maxFeePerGas := by
  refine ⟨rfl, ?_, ?_⟩
  · exact bump_div_strict _ _ h1
  · exact bump_div_strict _ _ h2

/-- Witness for C3_amended at the bid (100, 200) with p = 20. -/
theorem C3_amended_witness :
    (100 ≤ 100 * 20) ∧ (100 ≤ 200 * 20) ∧
    (bump_fees { maxPriorityFeePerGas := 100, maxFeePerGas := 200 } 20 =
      { maxPriorityFeePerGas := 100 * (100 + 20) / 100, maxFeePerGas := 200 * (100 + 20) / 100 } ∧
     100 < (bump_fees { maxPriorityFeePerGas := 100, maxFeePerGas := 200 } 20).maxPriorityFeePerGas ∧
     200 < (bump_fees { maxPriorityFeePerGas := 100, maxFeePerGas := 200 } 20).maxFeePerGas) :=
  ⟨by decide, by decide,
    C3_amended { maxPriorityFeePerGas := 100, maxFeePerGas := 200 } 20 (by decide) (by decide)⟩

/-- C5: the fee-bid invariant maxFee ≥ priorityFee holds for every bid
returned by `suggest_fees` — whatever the fee-history answer, including
the gas-price fallback path — and is preserved by `bump_fees` for every
bid already satisfying it and every bump percentage. -/
theorem C5_invariant (feeHistory : Option (List Nat)) (gas_price priority : Nat)
    (f : Fees) (p : Nat) (hf : f.maxPriorityFeePerGas ≤ f.maxFeePerGas) :
    (suggest_fees feeHistory gas_price priority).maxPriorityFeePerGas ≤
      (suggest_fees feeHistory gas_price priority).maxFeePerGas ∧
    (bump_fees f p).maxPriorityFeePerGas ≤ (bump_fees f p).maxFeePerGas := by
  constructor
  · simp only [suggest_fees]
    omega
  · exact bump_div_mono _ _ _ hf

/-- Witness for C5_invariant on the gas-price fallback path with the bid
(5, 9) and p = 20. -/
theorem C5_invariant_witness :
    (5 ≤ 9) ∧
    ((suggest_fees none 7 3).maxPriorityFeePerGas ≤ (suggest_fees none 7 3).maxFeePerGas ∧
     (bump_fees { maxPriorityFeePerGas := 5, maxFeePerGas := 9 } 20).maxPriorityFeePerGas ≤
       (bump_fees { maxPriorityFeePerGas := 5, maxFeePerGas := 9 } 20).maxFeePerGas) :=
  ⟨by decide, C5_invariant none 7 3 { maxPriorityFeePerGas := 5, maxFeePerGas := 9 } 20 (by decide)⟩

/-- C6: `suggest_fees` returns the bid with priorityFee the hint and
maxFee the last base fee of the fee-history window plus twice the hint,
falling back to the gas price when fee-history fails; being a function of
the node answers, two calls under unchanged answers give the same bid. -/
theorem C6_estimate_initial (fh : List Nat) (b gas_price priority : Nat)
    (hb : fh.getLast? = some b) :
    suggest_fees (some fh) gas_price priority = estimateInitial_spec b priority ∧
    suggest_fees none gas_price priority = estimateInitial_spec gas_price priority ∧
    (∀ (feeHistory : Option (List Nat)) (gp pr : Nat),
      suggest_fees feeHistory gp pr = suggest_fees feeHistory gp pr) := by
  refine ⟨?_, ?_, fun _ _ _ => rfl⟩
  · simp only [suggest_fees, estimateInitial_spec, hb]
    congr 1
    omega
  · simp only [suggest_fees, estimateInitial_spec]
    congr 1
    omega

/-- Witness for C6_estimate_initial with fee-history window [10, 20]. -/
theorem C6_estimate_initial_witness :
    ([10, 20].getLast? = some 20) ∧
    (suggest_fees (some [10, 20]) 7 3 = estimateInitial_spec 20 3 ∧
     suggest_fees none 7 3 = estimateInitial_spec 7 3 ∧
     (∀ (feeHistory : Option (List Nat)) (gp pr : Nat),
       suggest_fees feeHistory gp pr = suggest_fees feeHistory gp pr)) :=
  ⟨by decide, C6_estimate_initial [10, 20] 20 7 3 (by decide)⟩

/-- C7: on success `estimate_gas_safe` returns the node estimate plus a
10 percent margin rounded down; on estimation failure it returns the
caller's fallback when present, and re-raises (returns none) exactly when
estimation failed and no fallback was supplied. -/
theorem C7_gas_margin (g fb : Nat) (fbo : Option Nat) :
    estimate_gas_safe (some g) fbo = some (g + g / 10) ∧
    estimate_gas_safe none (some fb) = some fb ∧
    (∀ ge fallback : Option Nat,
      estimate_gas_safe ge fallback = none ↔ (ge = none ∧ fallback = none)) := by
  refine ⟨?_, rfl, ?_⟩
  · simp only [estimate_gas_safe, Option.some.injEq]
    omega
  · intro ge fallback
    cases ge <;> simp [estimate_gas_safe]

/-- Helper: whenever the current round's poll observes a receipt whose
status is not 1, the loop returns at once with that single attempt, the
nonce manager untouched and no rollback, whatever fuel remains. -/
theorem sendLoop_receipt_failure (env : Nat → RoundResult) (tx : Tx) (mgr : NonceManager)
    (fuel s : Nat) (henv : env 0 = RoundResult.receipt s) (hs : s ≠ 1) :
    sendLoop env tx mgr fuel =
      { outcome := Outcome.confirmedFailure, attempts := [tx], mgr := mgr, backCalls := 0 } := by
  cases fuel <;> simp [sendLoop, henv, hs]

/-- Helper: every broadcast attempt of the loop carries the same
chainId, destination, value, call data, sender, nonce and gas limit as
the initial draft; only the two fee fields are rewritten between rounds. -/
theorem sendLoop_frame (fuel : Nat) :
    ∀ (env : Nat → RoundResult) (tx : Tx) (mgr : NonceManager),
      ∀ a ∈ (sendLoop env tx mgr fuel).attempts,
        a.chainId = tx.chainId ∧ a.toAddr = tx.toAddr ∧ a.value = tx.value ∧
        a.data = tx.data ∧ a.fromAddr = tx.fromAddr ∧ a.nonce = tx.nonce ∧ a.gas = tx.gas := by
  induction fuel with
  | zero =>
    intro env tx mgr a ha
    cases h : env 0 <;> simp [sendLoop, h] at ha <;> subst ha <;>
      exact ⟨rfl, rfl, rfl, rfl, rfl, rfl, rfl⟩
  | succ n ih =>
    intro env tx mgr a ha
    cases h : env 0 with
    | receipt s =>
      simp [sendLoop, h] at ha
      subst ha
      exact ⟨rfl, rfl, rfl, rfl, rfl, rfl, rfl⟩
    | timeout =>
      simp [sendLoop, h] at ha
      rcases ha with ha | ha
      · subst ha
        exact ⟨rfl, rfl, rfl, rfl, rfl, rfl, rfl⟩
      · have h2 := ih (fun n2 => env (n2 + 1))
          { tx with
            maxPriorityFeePerGas :=
              (bump_fees { maxPriorityFeePerGas := tx.maxPriorityFeePerGas,
                           maxFeePerGas := tx.maxFeePerGas } BUMP_PCT).maxPriorityFeePerGas,
            maxFeePerGas :=
              (bump_fees { maxPriorityFeePerGas := tx.maxPriorityFeePerGas,
                           maxFeePerGas := tx.maxFeePerGas } BUMP_PCT).maxFeePerGas }
          (NonceManager.back mgr) a ha
        exact h2

/-- Concrete tx_fields used by the concrete-run theorems: chainId 1,
destination 7, value 0, call data tag 42, sender 3, initial bid
(1000, 2000). -/
def tfEx : TxFields :=
  { chainId := 1, toAddr := 7, value := 0, data := 42, fromAddr := 3,
    maxPriorityFeePerGas := 1000, maxFeePerGas := 2000 }

/-- Concrete poll environment: the first round times out, every later
round observes a success receipt. -/
def envA : Nat → RoundResult :=
  fun k => if k = 0 then RoundResult.timeout else RoundResult.receipt 1

/-- Concrete broadcast draft: the one attempt produced by running
`send_with_rbf` with gas estimate 100 and tx_fields `tfEx` from cursor 5. -/
def txEx : Tx :=
  { chainId := 1, toAddr := 7, value := 0, data := 42, fromAddr := 3, nonce := 5,
    gas := 110, maxPriorityFeePerGas := 1000, maxFeePerGas := 2000 }

/-- C1 fails on the code: starting from cursor 5, an Operation whose
first round times out and whose replacement confirms with success ends
Confirmed-Success having consumed nonce 5 once — but because the loop
called `nonce_mgr.back()` before the replacement, the next Operation
consumes nonce 5 again instead of 6; and after an Abandoned outcome with
max_retries = 0 no rollback happens at all, so the cursor is 6 and the
next Operation does not reuse the abandoned nonce 5. -/
theorem C1_code_bug :
    (send_with_rbf (some 100) 120000 envA { nonce := 5 } tfEx 3 20).outcome =
      Outcome.confirmedSuccess ∧
    ((send_with_rbf (some 100) 120000 envA { nonce := 5 } tfEx 3 20).attempts.map Tx.nonce =
      [5, 5]) ∧
    ((send_with_rbf (some 100) 120000 (fun _ => RoundResult.receipt 1)
        (send_with_rbf (some 100) 120000 envA { nonce := 5 } tfEx 3 20).mgr
        tfEx 3 20).attempts.map Tx.nonce = [5]) ∧
    (send_with_rbf (some 100) 120000 (fun _ => RoundResult.timeout)
        { nonce := 5 } tfEx 0 20).outcome = Outcome.abandoned ∧
    (send_with_rbf (some 100) 120000 (fun _ => RoundResult.timeout)
        { nonce := 5 } tfEx 0 20).mgr = { nonce := 6 } := by
  decide

/-- C2 fails on the code: with max_retries = 2, a run whose first round
times out and then confirms calls `back()` once (on the replacement
round, where the claim says none is called), and a run in which every
round times out performs exactly 2 fee bumps but calls `back()` twice —
once per replacement round — and not at the terminal Abandoned timeout,
where the claim requires the single rollback. -/
theorem C2_code_bug :
    (send_with_rbf (some 100) 120000 envA { nonce := 5 } tfEx 2 20).outcome =
      Outcome.confirmedSuccess ∧
    (send_with_rbf (some 100) 120000 envA { nonce := 5 } tfEx 2 20).backCalls = 1 ∧
    (send_with_rbf (some 100) 120000 (fun _ => RoundResult.timeout)
        { nonce := 5 } tfEx 2 20).outcome = Outcome.abandoned ∧
    (send_with_rbf (some 100) 120000 (fun _ => RoundResult.timeout)
        { nonce := 5 } tfEx 2 20).backCalls = 2 ∧
    ((send_with_rbf (some 100) 120000 (fun _ => RoundResult.timeout)
        { nonce := 5 } tfEx 2 20).attempts.map Tx.maxFeePerGas = [2000, 2400, 2880]) := by
  decide

/-- C4 fails on the code: called with bump_pct = 50 on the initial bid
(1000, 2000), the replacement attempt carries the bid (1200, 2400) —
bumped by the module constant BUMP_PCT = 20 percent — while `bump_fees`
of the previous bid at 50 percent is (1500, 3000); the `bump_pct`
argument is accepted but never used. -/
theorem C4_code_bug :
    ((send_with_rbf (some 100) 120000 envA { nonce := 5 } tfEx 3 50).attempts.map
        Tx.maxFeePerGas = [2000, 2400]) ∧
    ((send_with_rbf (some 100) 120000 envA { nonce := 5 } tfEx 3 50).attempts.map
        Tx.maxPriorityFeePerGas = [1000, 1200]) ∧
    bump_fees { maxPriorityFeePerGas := 1000, maxFeePerGas := 2000 } 50 =
      { maxPriorityFeePerGas := 1500, maxFeePerGas := 3000 } := by
  decide

/-- C8: when the poll loop observes a receipt with failure status
(status not 1), the Operation ends Confirmed-Failure immediately — from
any mid-loop state the loop returns just the current attempt (whose hash
is what the source returns) with the nonce manager untouched — and a
whole `send_with_rbf` call under such an environment broadcasts exactly
one attempt, performs no bump and never calls the rollback, leaving the
cursor exactly one past the consumed nonce. -/
theorem C8_confirmed_failure (gas_est : Option Nat) (fb : Nat) (env : Nat → RoundResult)
    (mgr : NonceManager) (tf : TxFields) (tx : Tx) (m2 : NonceManager)
    (mr bp s fuel : Nat) (hs : s ≠ 1) (henv : env 0 = RoundResult.receipt s) :
    sendLoop env tx m2 fuel =
      { outcome := Outcome.confirmedFailure, attempts := [tx], mgr := m2, backCalls := 0 } ∧
    (send_with_rbf gas_est fb env mgr tf mr bp).outcome = Outcome.confirmedFailure ∧
    (send_with_rbf gas_est fb env mgr tf mr bp).attempts.length = 1 ∧
    (send_with_rbf gas_est fb env mgr tf mr bp).backCalls = 0 ∧
    (send_with_rbf gas_est fb env mgr tf mr bp).mgr = { nonce := mgr.nonce + 1 } := by
  have hloop : ∀ (tx3 : Tx) (m3 : NonceManager) (f3 : Nat),
      sendLoop env tx3 m3 f3 =
        { outcome := Outcome.confirmedFailure, attempts := [tx3], mgr := m3, backCalls := 0 } :=
    fun tx3 m3 f3 => sendLoop_receipt_failure env tx3 m3 f3 s henv hs
  refine ⟨hloop tx m2 fuel, ?_, ?_, ?_, ?_⟩ <;>
    simp [send_with_rbf, hloop, NonceManager.next]

/-- Witness for C8_confirmed_failure under an environment that always
answers with a status-0 receipt. -/
theorem C8_confirmed_failure_witness :
    ((0 : Nat) ≠ 1) ∧
    ((fun _ : Nat => RoundResult.receipt 0) 0 = RoundResult.receipt 0) ∧
    (sendLoop (fun _ => RoundResult.receipt 0) txEx { nonce := 9 } 2 =
       { outcome := Outcome.confirmedFailure, attempts := [txEx],
         mgr := { nonce := 9 }, backCalls := 0 } ∧
     (send_with_rbf (some 100) 120000 (fun _ => RoundResult.receipt 0)
        { nonce := 5 } tfEx 3 20).outcome = Outcome.confirmedFailure ∧
     (send_with_rbf (some 100) 120000 (fun _ => RoundResult.receipt 0)
        { nonce := 5 } tfEx 3 20).attempts.length = 1 ∧
     (send_with_rbf (some 100) 120000 (fun _ => RoundResult.receipt 0)
        { nonce := 5 } tfEx 3 20).backCalls = 0 ∧
     (send_with_rbf (some 100) 120000 (fun _ => RoundResult.receipt 0)
        { nonce := 5 } tfEx 3 20).mgr = { nonce := (5 : Nat) + 1 }) :=
  ⟨by decide, rfl,
    C8_confirmed_failure (some 100) 120000 (fun _ => RoundResult.receipt 0)
      { nonce := 5 } tfEx txEx { nonce := 9 } 3 20 0 2 (by decide) rfl⟩

/-- C9: with max_retries = 0 exactly one transaction is broadcast
whatever the poll outcomes, and if the single round times out the call
ends Abandoned with the lone attempt still carrying the caller's
original, unbumped fee bid. -/
theorem C9_single_attempt (gas_est : Option Nat) (fb : Nat) (env env2 : Nat → RoundResult)
    (mgr : NonceManager) (tf : TxFields) (bp bp2 : Nat)
    (henv : env 0 = RoundResult.timeout) :
    (send_with_rbf gas_est fb env2 mgr tf 0 bp2).attempts.length = 1 ∧
    (send_with_rbf gas_est fb env mgr tf 0 bp).outcome = Outcome.abandoned ∧
    ((send_with_rbf gas_est fb env mgr tf 0 bp).attempts.map Tx.maxFeePerGas =
      [tf.maxFeePerGas]) ∧
    ((send_with_rbf gas_est fb env mgr tf 0 bp).attempts.map Tx.maxPriorityFeePerGas =
      [tf.maxPriorityFeePerGas]) := by
  refine ⟨?_, ?_, ?_, ?_⟩
  · simp only [send_with_rbf]
    cases h : env2 0 <;> simp [sendLoop, h]
  all_goals simp [send_with_rbf, sendLoop, henv]

/-- Witness for C9_single_attempt: always-timeout environment for the
Abandoned part and an immediate-receipt environment for the
single-broadcast part. -/
theorem C9_single_attempt_witness :
    ((fun _ : Nat => RoundResult.timeout) 0 = RoundResult.timeout) ∧
    ((send_with_rbf (some 100) 120000 (fun _ => RoundResult.receipt 1)
        { nonce := 5 } tfEx 0 20).attempts.length = 1 ∧
     (send_with_rbf (some 100) 120000 (fun _ => RoundResult.timeout)
        { nonce := 5 } tfEx 0 20).outcome = Outcome.abandoned ∧
     ((send_with_rbf (some 100) 120000 (fun _ => RoundResult.timeout)
        { nonce := 5 } tfEx 0 20).attempts.map Tx.maxFeePerGas = [tfEx.maxFeePerGas]) ∧
     ((send_with_rbf (some 100) 120000 (fun _ => RoundResult.timeout)
        { nonce := 5 } tfEx 0 20).attempts.map Tx.maxPriorityFeePerGas =
       [tfEx.maxPriorityFeePerGas])) :=
  ⟨rfl,
    C9_single_attempt (some 100) 120000 (fun _ => RoundResult.timeout)
      (fun _ => RoundResult.receipt 1) { nonce := 5 } tfEx 20 20 rfl⟩

/-- C10: within one `send_with_rbf` call every broadcast attempt carries
the chainId, destination, value, call data and sender of the input
tx_fields, the single nonce taken from the cursor, and the gas limit
computed once by `estimate_gas_safe` before the first broadcast; only
the two fee fields differ between successive attempts. -/
theorem C10_frame (gas_est : Option Nat) (fb : Nat) (env : Nat → RoundResult)
    (mgr : NonceManager) (tf : TxFields) (mr bp : Nat) :
    ∀ a ∈ (send_with_rbf gas_est fb env mgr tf mr bp).attempts,
      a.chainId = tf.chainId ∧ a.toAddr = tf.toAddr ∧ a.value = tf.value ∧
      a.data = tf.data ∧ a.fromAddr = tf.fromAddr ∧ a.nonce = mgr.nonce ∧
      a.gas = (estimate_gas_safe gas_est (some fb)).getD fb := by
  intro a ha
  exact sendLoop_frame mr env _ _ a ha

/-- Witness for C10_frame at the single-attempt run from cursor 5. -/
theorem C10_frame_witness :
    txEx ∈ (send_with_rbf (some 100) 120000 (fun _ => RoundResult.receipt 1)
      { nonce := 5 } tfEx 0 20).attempts ∧
    (txEx.chainId = tfEx.chainId ∧ txEx.toAddr = tfEx.toAddr ∧ txEx.value = tfEx.value ∧
     txEx.data = tfEx.data ∧ txEx.fromAddr = tfEx.fromAddr ∧
     txEx.nonce = NonceManager.nonce { nonce := 5 } ∧
     txEx.gas = (estimate_gas_safe (some 100) (some 120000)).getD 120000) :=
  ⟨by decide,
    C10_frame (some 100) 120000 (fun _ => RoundResult.receipt 1)
      { nonce := 5 } tfEx 0 20 txEx (by decide)⟩
